import Mathlib

/-!
Shallow embedding of the real-time audio pipeline of `src/index.tsx`
(the `GdmLiveAudio` component): the linear resampler `resampleTo16kHz`,
the RMS level meter / voice-activity gate, the ingest buffer with its
in-flight flush guard (`sendAudioChunk`, the `onaudioprocess` callback,
`stopRecording`), and the playback scheduler embedded in the
`onmessage` callback (`nextStartTime`, the `sources` set, the
`interrupted` handler).

Audio samples are modelled as rationals (the source's Float32 samples;
none of the verified properties depend on floating-point rounding).
Machine floats' `Math.floor` on nonnegative values is `Int.floor`
composed with `Int.toNat`.  The RMS level `sqrt(mean(x^2))` is
irrational in general, so the single comparison the code makes with
it, `level > silenceThreshold`, is embedded as the equivalent
squared comparison `mean(x^2) > silenceThreshold^2` (both sides are
nonnegative, and squaring is strictly monotone there).
-/

attribute [local semireducible] Rat.add Rat.mul Rat.inv Rat.sub

set_option maxRecDepth 100000

namespace EsnupiVoice

/-- Configuration constant `silenceThreshold = 0.01` from `src/index.tsx` line 33. -/
def silenceThreshold : ℚ := 1 / 100

/-- Configuration constant `maxSilenceFrames = 30` from `src/index.tsx` line 35. -/
def maxSilenceFrames : ℕ := 30

/-- Configuration constant `minAudioFrames = 10` from `src/index.tsx` line 36. -/
def minAudioFrames : ℕ := 10

/-- Batch size `20` frames hard-coded in the `onaudioprocess` callback
(`src/index.tsx` line 394). -/
def batchFrameCount : ℕ := 20

/-- Embedding of `resampleTo16kHz` (`src/index.tsx` lines 41-67): simple linear
resampling to 16 kHz.  Returns the input unchanged when the source rate is
already 16000; otherwise output length is `floor(len / ratio)` with
`ratio = inputSampleRate / 16000`, each output sample linearly interpolating
`input[floor(i*ratio)]` and `input[floor(i*ratio)+1]`, falling back to the
lower sample, or to 0 when even that is out of range (the JS `input[index] || 0`). -/
def resampleTo16kHz (input : List ℚ) (inputSampleRate : ℕ) : List ℚ :=
  let outputSampleRate : ℕ := 16000
  if inputSampleRate = outputSampleRate then input
  else
    let ratio : ℚ := (inputSampleRate : ℚ) / (outputSampleRate : ℚ)
    let outputLength : ℕ := (⌊(input.length : ℚ) / ratio⌋).toNat
    (List.range outputLength).map (fun (i : ℕ) =>
      let srcIndex : ℚ := (i : ℚ) * ratio
      let index : ℕ := (⌊srcIndex⌋).toNat
      let fraction : ℚ := srcIndex - (index : ℚ)
      if index + 1 < input.length then
        input.getD index 0 * (1 - fraction) + input.getD (index + 1) 0 * fraction
      else
        input.getD index 0)

/-- Square of the RMS audio level computed by `calculateAudioLevel`
(`src/index.tsx` lines 70-76): `mean(sample^2)`.  The code's level is
the square root of this; only the comparison against the threshold is
ever used, which is embedded squared (see the file comment). -/
def calculateAudioLevelSq (samples : List ℚ) : ℚ :=
  (samples.map (fun x => x * x)).sum / (samples.length : ℚ)

/-- Embedding of `hasVoiceActivity` (`src/index.tsx` lines 79-81):
`audioLevel > silenceThreshold`, stated as the equivalent squared
comparison. -/
def hasVoiceActivity (samples : List ℚ) : Bool :=
  decide (silenceThreshold ^ 2 < calculateAudioLevelSq samples)

/-- The component's four-valued `conversationState`
(`src/index.tsx` line 18). -/
inductive ConvState where
  | waiting
  | listening
  | processing
  | responding
deriving DecidableEq, BEq, Repr

/-- The mutable fields of `GdmLiveAudio` that the ingest path reads and
writes (`src/index.tsx` lines 15-38), plus a ghost log `sent` of every
chunk handed to `session.sendRealtimeInput` in push order. -/
structure IngestState where
  isRecording : Bool
  silenceCount : ℕ
  audioBuffer : List (List ℚ)
  isProcessingAudio : Bool
  conversationState : ConvState
  sent : List (List ℚ)
deriving DecidableEq, Repr

/-- Embedding of `sendAudioChunk` (`src/index.tsx` lines 84-109): a no-op
when fewer than `minAudioFrames` frames are pending or a flush is in
flight; otherwise sets the in-flight guard, sends the concatenation of all
buffered frames as one chunk, and clears the buffer.  The `setTimeout`
that clears the guard 50 ms later is modelled as the separate event
`flushCooldownElapsed`. -/
def sendAudioChunk (s : IngestState) : IngestState :=
  if s.audioBuffer.length < minAudioFrames || s.isProcessingAudio then s
  else
    { s with
      isProcessingAudio := true
      sent := s.sent ++ [s.audioBuffer.flatten]
      audioBuffer := [] }

/-- The deferred `setTimeout` callback inside `sendAudioChunk`
(`src/index.tsx` lines 106-108) that clears the in-flight guard after the
50 ms cooldown. -/
def flushCooldownElapsed (s : IngestState) : IngestState :=
  { s with isProcessingAudio := false }

/-- Embedding of the `onaudioprocess` callback (`src/index.tsx` lines
373-407) for one captured frame `pcm` at device sample rate `sr`: early
return unless recording; on a voice frame reset `silenceCount`, set state
`listening`, buffer the resampled frame and flush once `batchFrameCount`
frames are pending; on a silent frame increment `silenceCount` and, when
audio is buffered and the count has reached `maxSilenceFrames`, flush and
set state `processing`. -/
def processFrame (sr : ℕ) (pcm : List ℚ) (s : IngestState) : IngestState :=
  if !s.isRecording then s
  else if hasVoiceActivity pcm then
    let s1 : IngestState :=
      { s with
        silenceCount := 0
        conversationState := ConvState.listening
        audioBuffer := s.audioBuffer ++ [resampleTo16kHz pcm sr] }
    if batchFrameCount ≤ s1.audioBuffer.length then sendAudioChunk s1 else s1
  else
    let s1 : IngestState := { s with silenceCount := s.silenceCount + 1 }
    if 0 < s1.audioBuffer.length ∧ maxSilenceFrames ≤ s1.silenceCount then
      { sendAudioChunk s1 with conversationState := ConvState.processing }
    else s1

/-- Folding `processFrame` over a list of captured frames in arrival
order (the serialized audio callback stream). -/
def processFrames (sr : ℕ) (fs : List (List ℚ)) (s : IngestState) : IngestState :=
  fs.foldl (fun t f => processFrame sr f t) s

/-- Guard of the silence branch's flush (`src/index.tsx` line 401): true
exactly when processing frame `pcm` in state `s` executes the
silence-triggered `sendAudioChunk` call and the transition to
`processing`. -/
def silenceFlushFires (pcm : List ℚ) (s : IngestState) : Bool :=
  s.isRecording && !hasVoiceActivity pcm &&
    decide (0 < s.audioBuffer.length) &&
    decide (maxSilenceFrames ≤ s.silenceCount + 1)

/-- Embedding of `stopRecording` (`src/index.tsx` lines 422-455) past its
early-return guard (the guard compares device handles that are outside
the core; the theorems about this function assume `isRecording = true`,
under which the guard cannot fire): clear `isRecording`, flush any
remaining buffered audio through `sendAudioChunk`, then reset the buffer,
the silence counter and the in-flight guard, and set state `processing`. -/
def stopRecording (s : IngestState) : IngestState :=
  let s0 : IngestState := { s with isRecording := false }
  let s1 : IngestState := if 0 < s0.audioBuffer.length then sendAudioChunk s0 else s0
  { s1 with
    audioBuffer := []
    silenceCount := 0
    isProcessingAudio := false
    conversationState := ConvState.processing }

/-- Write of `conversationState` performed by the `onmessage` callback when
a server message carries audio (`src/index.tsx` line 260). -/
def onAudioMessage (s : IngestState) : IngestState :=
  { s with conversationState := ConvState.responding }

/-- Write of `conversationState` performed by a source's `ended` listener
when the last active source finishes (`src/index.tsx` lines 277-284):
fires only when `sources` has just become empty. -/
def onPlaybackDrained (s : IngestState) : IngestState :=
  { s with conversationState := ConvState.waiting }

/-- The playback-scheduler fields of `GdmLiveAudio`: the timeline cursor
`nextStartTime` (`src/index.tsx` line 25) and the set `sources` of active
`AudioBufferSourceNode`s (line 29), modelled as a list of tokens drawn
from a fresh counter (the JS `Set` holds distinct object identities). -/
structure SchedState where
  nextStartTime : ℚ
  active : List ℕ
  nextToken : ℕ
deriving DecidableEq, Repr

/-- Embedding of the audio-enqueue step of the `onmessage` callback
(`src/index.tsx` lines 263-288): clamp `nextStartTime` to
`max(nextStartTime, currentTime)`, start the new source at that time,
advance `nextStartTime` by the segment's duration, and add the source to
the active set.  Returns the updated state and the scheduled start time. -/
def enqueueSeg (duration clockNow : ℚ) (s : SchedState) : SchedState × ℚ :=
  let startTime : ℚ := max s.nextStartTime clockNow
  ({ nextStartTime := startTime + duration
     active := s.active ++ [s.nextToken]
     nextToken := s.nextToken + 1 }, startTime)

/-- Embedding of a source's natural-completion `ended` listener
(`src/index.tsx` lines 277-284): remove the finished source from the
active set; `nextStartTime` is untouched. -/
def completeSeg (t : ℕ) (s : SchedState) : SchedState :=
  { s with active := s.active.erase t }

/-- Embedding of the `interrupted` handler of the `onmessage` callback
(`src/index.tsx` lines 291-298): stop and remove every active source and
reset `nextStartTime` to 0.  Returns the updated state and the list of
sources that received a `stop()` call, in iteration order. -/
def cancelAllSeg (s : SchedState) : SchedState × List ℕ :=
  ({ nextStartTime := 0, active := [], nextToken := s.nextToken }, s.active)

/-- Reachable configurations `(state, deviceClock)` of the playback
scheduler.  `initial` is `initAudio` (`src/index.tsx` line 210), which
sets `nextStartTime` to the device clock; the clock is monotone and may
advance before any event; enqueued segments have nonnegative durations
(they are decoded audio buffers). -/
inductive SchedReach : SchedState × ℚ → Prop where
  | initial (c : ℚ) (h : 0 ≤ c) : SchedReach (⟨c, [], 0⟩, c)
  | tick {s : SchedState} {c c' : ℚ} (hr : SchedReach (s, c)) (h : c ≤ c') :
      SchedReach (s, c')
  | enqueue {s : SchedState} {c c' d : ℚ} (hr : SchedReach (s, c))
      (h : c ≤ c') (hd : 0 ≤ d) : SchedReach ((enqueueSeg d c' s).1, c')
  | complete {s : SchedState} {c : ℚ} (t : ℕ) (hr : SchedReach (s, c)) :
      SchedReach (completeSeg t s, c)
  | interrupt {s : SchedState} {c c' : ℚ} (hr : SchedReach (s, c))
      (h : c ≤ c') : SchedReach ((cancelAllSeg s).1, c')

/-- The four conversation-state transitions listed in the specification:
`waiting → listening`, `listening → processing`,
`processing → responding`, `responding → waiting`. -/
def listedTransition (a b : ConvState) : Bool :=
  (a == ConvState.waiting && b == ConvState.listening) ||
  (a == ConvState.listening && b == ConvState.processing) ||
  (a == ConvState.processing && b == ConvState.responding) ||
  (a == ConvState.responding && b == ConvState.waiting)

/-- A convenient fully-quiescent ingest state with recording on. -/
def freshIngest : IngestState :=
  { isRecording := true
    silenceCount := 0
    audioBuffer := []
    isProcessingAudio := false
    conversationState := ConvState.waiting
    sent := [] }

/-!  General lemmas about silent frames, shared by several claims. -/

/-- Processing a silent frame either leaves `sent` and the buffer unchanged,
or (when the silence-triggered flush succeeds) appends exactly the flattened
buffer to `sent` and empties the buffer. -/
theorem silent_step_cases (sr : ℕ) (pcm : List ℚ) (s : IngestState)
    (h : hasVoiceActivity pcm = false) :
    ((processFrame sr pcm s).sent = s.sent ∧
      (processFrame sr pcm s).audioBuffer = s.audioBuffer) ∨
    ((processFrame sr pcm s).sent = s.sent ++ [s.audioBuffer.flatten] ∧
      (processFrame sr pcm s).audioBuffer = []) := by
  unfold processFrame
  cases hr : s.isRecording with
  | false => left; simp [hr]
  | true =>
    simp only [hr, h, Bool.not_true, Bool.false_eq_true, if_false, if_true]
    split
    · unfold sendAudioChunk
      split
      · left; simp
      · right; simp
    · left; simp

/-- Processing a silent frame when the buffer is empty changes neither
`sent` nor the buffer. -/
theorem silent_step_empty (sr : ℕ) (pcm : List ℚ) (s : IngestState)
    (h : hasVoiceActivity pcm = false) (hb : s.audioBuffer = []) :
    (processFrame sr pcm s).sent = s.sent ∧
    (processFrame sr pcm s).audioBuffer = [] := by
  unfold processFrame
  cases hr : s.isRecording with
  | false => simp [hr, hb]
  | true => simp [hr, h, hb]

/-- A run of silent frames starting from an empty buffer sends nothing and
leaves the buffer empty. -/
theorem silent_run_empty (sr : ℕ) (fs : List (List ℚ)) (s : IngestState)
    (hb : s.audioBuffer = []) (hf : ∀ f ∈ fs, hasVoiceActivity f = false) :
    (processFrames sr fs s).sent = s.sent ∧
    (processFrames sr fs s).audioBuffer = [] := by
  induction fs generalizing s with
  | nil => exact ⟨rfl, hb⟩
  | cons f rest ih =>
    have hstep := silent_step_empty sr f s (hf f (by simp)) hb
    have hrest := ih (processFrame sr f s) hstep.2
      (fun g hg => hf g (List.mem_cons_of_mem _ hg))
    exact ⟨hrest.1.trans hstep.1, hrest.2⟩

/-- At most one transport send can occur during any run of consecutive
silent frames: a successful flush empties the buffer, and silent frames are
never buffered, so no further flush can fire. -/
theorem silent_run_sends_le (sr : ℕ) (fs : List (List ℚ)) (s : IngestState)
    (hf : ∀ f ∈ fs, hasVoiceActivity f = false) :
    (processFrames sr fs s).sent.length ≤ s.sent.length + 1 := by
  induction fs generalizing s with
  | nil => simp [processFrames]
  | cons f rest ih =>
    have hrec : processFrames sr (f :: rest) s
        = processFrames sr rest (processFrame sr f s) := rfl
    rcases silent_step_cases sr f s (hf f (by simp)) with ⟨h1, _⟩ | ⟨h1, h2⟩
    · have hih := ih (processFrame sr f s) (fun g hg => hf g (List.mem_cons_of_mem _ hg))
      rw [h1] at hih
      rw [hrec]
      exact hih
    · have hrest := silent_run_empty sr rest (processFrame sr f s) h2
        (fun g hg => hf g (List.mem_cons_of_mem _ hg))
      rw [hrec, hrest.1, h1]
      simp

/-!  Claim theorems. -/

/-- The `sendAudioChunk` helper never touches the silence counter. -/
theorem sendAudioChunk_silenceCount (s : IngestState) :
    (sendAudioChunk s).silenceCount = s.silenceCount := by
  unfold sendAudioChunk
  split <;> rfl

/-- C3 counterexample: after one speech frame (one buffered frame) and 29
silent frames, the silence-triggered flush condition fires on the 30th
silent frame and fires AGAIN on the 31st — it is level-triggered, not
edge-triggered — and because only one frame is buffered (below
`minAudioFrames`) the whole run produces no transport send at all, so under
neither reading does the stopped-speaking event fire exactly once. -/
theorem C3_counterexample :
    silenceFlushFires [0]
      (processFrames 16000 ([1/2] :: List.replicate 29 [0]) freshIngest) = true ∧
    silenceFlushFires [0]
      (processFrame 16000 [0]
        (processFrames 16000 ([1/2] :: List.replicate 29 [0]) freshIngest)) = true ∧
    (processFrames 16000 ([1/2] :: List.replicate 31 [0]) freshIngest).sent = [] := by
  refine ⟨?_, ?_, ?_⟩ <;> decide

/-- C3 amended: a speech frame resets the silence run length to 0 and each
silent frame increments it by 1, as claimed; the silence-triggered flush
however is level-triggered on (nonempty buffer ∧ silenceCount ≥
maxSilenceFrames) and may re-fire on subsequent silent frames, but at most
one transport send results from any run of consecutive silent frames,
because a successful flush empties the buffer and silent frames are never
buffered. -/
theorem C3_amended_silence_hysteresis (sr : ℕ) (s : IngestState) (pcm : List ℚ)
    (fs : List (List ℚ)) (hrec : s.isRecording = true)
    (hsil : ∀ f ∈ fs, hasVoiceActivity f = false) :
    (hasVoiceActivity pcm = true → (processFrame sr pcm s).silenceCount = 0) ∧
    (hasVoiceActivity pcm = false →
      (processFrame sr pcm s).silenceCount = s.silenceCount + 1) ∧
    (processFrames sr fs s).sent.length ≤ s.sent.length + 1 := by
  refine ⟨?_, ?_, silent_run_sends_le sr fs s hsil⟩
  · intro hv
    unfold processFrame
    simp only [hrec, hv, Bool.not_true, Bool.false_eq_true, if_false, if_true]
    split
    · rw [sendAudioChunk_silenceCount]
    · rfl
  · intro hv
    unfold processFrame
    simp only [hrec, hv, Bool.not_true, Bool.false_eq_true, if_false, if_true]
    split
    · rw [sendAudioChunk_silenceCount]
    · rfl

/-- Witness for the amended C3 on a concrete silent run. -/
theorem C3_amended_silence_hysteresis_witness :
    (hasVoiceActivity [1/2] = true →
      (processFrame 16000 [1/2] freshIngest).silenceCount = 0) ∧
    (hasVoiceActivity [1/2] = false →
      (processFrame 16000 [1/2] freshIngest).silenceCount
        = freshIngest.silenceCount + 1) ∧
    (processFrames 16000 (List.replicate 31 [0]) freshIngest).sent.length
      ≤ freshIngest.sent.length + 1 :=
  C3_amended_silence_hysteresis 16000 freshIngest [1/2] (List.replicate 31 [0])
    (by decide) (by decide)

/-- C4: while a flush is in flight, processing any further frame performs
no transport send and leaves the guard set, a speech frame's resampled
samples being retained in the pending buffer; concretely, starting from a
clear guard with 19 buffered frames, 21 speech frames trigger the
batch-size flush twice within the cooldown window yet produce exactly one
send, the second batch of 20 frames staying buffered, and once the guard
clears one further speech frame flushes the retained batch as the second
send. -/
theorem C4_backpressure_guard (sr : ℕ) (pcm : List ℚ) (s : IngestState)
    (hg : s.isProcessingAudio = true) :
    (processFrame sr pcm s).sent = s.sent ∧
    (processFrame sr pcm s).isProcessingAudio = true ∧
    (s.isRecording = true → hasVoiceActivity pcm = true →
      (processFrame sr pcm s).audioBuffer
        = s.audioBuffer ++ [resampleTo16kHz pcm sr]) ∧
    (processFrames 16000 (List.replicate 21 [1/2])
      { freshIngest with audioBuffer := List.replicate 19 [1/2] }).sent.length = 1 ∧
    (processFrames 16000 (List.replicate 21 [1/2])
      { freshIngest with audioBuffer := List.replicate 19 [1/2] }).audioBuffer.length
      = 20 ∧
    (processFrame 16000 [1/2]
      (flushCooldownElapsed
        (processFrames 16000 (List.replicate 21 [1/2])
          { freshIngest with audioBuffer := List.replicate 19 [1/2] }))).sent.length
      = 2 := by
  refine ⟨?_, ?_, ?_, by decide, by decide, by decide⟩
  · unfold processFrame
    cases hr : s.isRecording with
    | false => rfl
    | true =>
      simp only [hr, Bool.not_true, Bool.false_eq_true, if_false]
      split
      · split
        · unfold sendAudioChunk
          simp [hg]
        · rfl
      · split
        · unfold sendAudioChunk
          simp [hg]
        · rfl
  · unfold processFrame
    cases hr : s.isRecording with
    | false => simpa using hg
    | true =>
      simp only [hr, Bool.not_true, Bool.false_eq_true, if_false]
      split
      · split
        · unfold sendAudioChunk
          simp [hg]
        · simpa using hg
      · split
        · unfold sendAudioChunk
          simp [hg]
        · simpa using hg
  · intro hr hv
    unfold processFrame
    simp only [hr, hv, Bool.not_true, Bool.false_eq_true, if_false, if_true]
    split
    · unfold sendAudioChunk
      simp [hg]
    · rfl

/-- Witness for C4 at a concrete in-flight state. -/
theorem C4_backpressure_guard_witness :
    (processFrame 16000 [1/2]
      { freshIngest with isProcessingAudio := true }).sent
      = ({ freshIngest with isProcessingAudio := true } : IngestState).sent ∧
    (processFrame 16000 [1/2]
      { freshIngest with isProcessingAudio := true }).isProcessingAudio = true ∧
    (({ freshIngest with isProcessingAudio := true } : IngestState).isRecording = true →
      hasVoiceActivity [1/2] = true →
      (processFrame 16000 [1/2]
        { freshIngest with isProcessingAudio := true }).audioBuffer
        = ({ freshIngest with isProcessingAudio := true } : IngestState).audioBuffer
          ++ [resampleTo16kHz [1/2] 16000]) ∧
    (processFrames 16000 (List.replicate 21 [1/2])
      { freshIngest with audioBuffer := List.replicate 19 [1/2] }).sent.length = 1 ∧
    (processFrames 16000 (List.replicate 21 [1/2])
      { freshIngest with audioBuffer := List.replicate 19 [1/2] }).audioBuffer.length
      = 20 ∧
    (processFrame 16000 [1/2]
      (flushCooldownElapsed
        (processFrames 16000 (List.replicate 21 [1/2])
          { freshIngest with audioBuffer := List.replicate 19 [1/2] }))).sent.length
      = 2 :=
  C4_backpressure_guard 16000 [1/2]
    { freshIngest with isProcessingAudio := true } (by decide)

/-- C1: every enqueued segment is scheduled at `max(nextStartTime,
deviceClockNow)` and immediately afterwards `nextStartTime` equals that
start time plus the segment's duration; enqueuing segments of durations
1.0 s, 0.5 s and 0.2 s with the device clock at 0 schedules them at
0.0, 1.0 and 1.5 and leaves `nextStartTime = 1.7`. -/
theorem C1_enqueue_gapless (s : SchedState) (d clockNow : ℚ) :
    (enqueueSeg d clockNow s).2 = max s.nextStartTime clockNow ∧
    (enqueueSeg d clockNow s).1.nextStartTime = (enqueueSeg d clockNow s).2 + d ∧
    (enqueueSeg 1 0 ⟨0, [], 0⟩).2 = 0 ∧
    (enqueueSeg (1/2) 0 (enqueueSeg 1 0 ⟨0, [], 0⟩).1).2 = 1 ∧
    (enqueueSeg (1/5) 0 (enqueueSeg (1/2) 0 (enqueueSeg 1 0 ⟨0, [], 0⟩).1).1).2 = 3/2 ∧
    (enqueueSeg (1/5) 0 (enqueueSeg (1/2) 0
      (enqueueSeg 1 0 ⟨0, [], 0⟩).1).1).1.nextStartTime = 17/10 := by
  refine ⟨rfl, rfl, ?_, ?_, ?_, ?_⟩ <;> decide

/-- C2: the `interrupted` handler stops every active source exactly once,
clears the active set, resets `nextStartTime` to 0 (so a subsequent
enqueue with the device clock at 5.0 is scheduled at 5.0 rather than on
the old timeline), issues no stop at all when the active set is already
empty, and is idempotent; being a total function it can raise no error. -/
theorem C2_cancelAll_resets (s : SchedState) (h : s.active.Nodup) :
    (cancelAllSeg s).2 = s.active ∧
    (∀ t ∈ s.active, ((cancelAllSeg s).2).count t = 1) ∧
    (cancelAllSeg s).1.active = [] ∧
    (cancelAllSeg s).1.nextStartTime = 0 ∧
    (∀ d : ℚ, (enqueueSeg d 5 (cancelAllSeg s).1).2 = 5) ∧
    (s.active = [] → (cancelAllSeg s).2 = []) ∧
    cancelAllSeg (cancelAllSeg s).1 = ((cancelAllSeg s).1, []) := by
  refine ⟨rfl, ?_, rfl, rfl, ?_, ?_, rfl⟩
  · intro t ht
    exact List.count_eq_one_of_mem h ht
  · intro d
    show max (0 : ℚ) 5 = 5
    decide
  · intro he
    exact he

/-- Witness for C2 at the concrete state left by the three enqueues of C1. -/
theorem C2_cancelAll_resets_witness :
    (cancelAllSeg ⟨17/10, [0, 1, 2], 3⟩).2 = (⟨17/10, [0, 1, 2], 3⟩ : SchedState).active ∧
    (∀ t ∈ (⟨17/10, [0, 1, 2], 3⟩ : SchedState).active,
      ((cancelAllSeg ⟨17/10, [0, 1, 2], 3⟩).2).count t = 1) ∧
    (cancelAllSeg ⟨17/10, [0, 1, 2], 3⟩).1.active = [] ∧
    (cancelAllSeg ⟨17/10, [0, 1, 2], 3⟩).1.nextStartTime = 0 ∧
    (∀ d : ℚ, (enqueueSeg d 5 (cancelAllSeg ⟨17/10, [0, 1, 2], 3⟩).1).2 = 5) ∧
    ((⟨17/10, [0, 1, 2], 3⟩ : SchedState).active = [] →
      (cancelAllSeg ⟨17/10, [0, 1, 2], 3⟩).2 = []) ∧
    cancelAllSeg (cancelAllSeg ⟨17/10, [0, 1, 2], 3⟩).1
      = ((cancelAllSeg ⟨17/10, [0, 1, 2], 3⟩).1, []) :=
  C2_cancelAll_resets ⟨17/10, [0, 1, 2], 3⟩ (by decide)

/-- C7 counterexample: the state reached by enqueuing a 1-second segment at
clock 0 and then receiving an `interrupted` signal with the clock at 2 is a
reachable scheduler state whose `nextStartTime` (namely 0) is strictly
below the device clock, refuting the claimed invariant
`nextStartTime ≥ deviceClock` in every reachable state. -/
theorem C7_counterexample :
    SchedReach ((cancelAllSeg (enqueueSeg 1 0 ⟨0, [], 0⟩).1).1, 2) ∧
    (cancelAllSeg (enqueueSeg 1 0 ⟨0, [], 0⟩).1).1.nextStartTime < 2 := by
  constructor
  · exact SchedReach.interrupt
      (SchedReach.enqueue (SchedReach.initial 0 le_rfl) le_rfl zero_le_one)
      (by norm_num)
  · decide

/-- C7 amended: the timeline invariant holds at every enqueue — immediately
after enqueuing a segment of nonnegative duration, `nextStartTime` is at
least the device clock observed by that enqueue — and natural completion
leaves `nextStartTime` unchanged; interruption however resets
`nextStartTime` to 0, which can lie below the current device clock. -/
theorem C7_amended_enqueue_clamps (s : SchedState) (c d : ℚ) (hd : 0 ≤ d) :
    c ≤ (enqueueSeg d c s).1.nextStartTime ∧
    (∀ t : ℕ, (completeSeg t s).nextStartTime = s.nextStartTime) ∧
    (cancelAllSeg s).1.nextStartTime = 0 := by
  refine ⟨?_, fun _ => rfl, rfl⟩
  calc c ≤ max s.nextStartTime c := le_max_right _ _
    _ ≤ max s.nextStartTime c + d := le_add_of_nonneg_right hd

/-- Witness for the amended C7 at a concrete enqueue. -/
theorem C7_amended_enqueue_clamps_witness :
    (5 : ℚ) ≤ (enqueueSeg 1 5 ⟨0, [], 0⟩).1.nextStartTime ∧
    (∀ t : ℕ, (completeSeg t (⟨0, [], 0⟩ : SchedState)).nextStartTime
      = (⟨0, [], 0⟩ : SchedState).nextStartTime) ∧
    (cancelAllSeg ⟨0, [], 0⟩).1.nextStartTime = 0 :=
  C7_amended_enqueue_clamps ⟨0, [], 0⟩ 5 1 (by norm_num)

/-- C5: when at least `minAudioFrames` frames are pending and no flush is
in flight, `sendAudioChunk` sends exactly one chunk — the concatenation of
all pending frames in push order — clears the pending list and raises the
in-flight guard; with fewer than `minAudioFrames` pending it sends nothing
and leaves the state entirely unchanged. -/
theorem C5_flush_concatenates (s : IngestState) :
    (minAudioFrames ≤ s.audioBuffer.length → s.isProcessingAudio = false →
      (sendAudioChunk s).sent = s.sent ++ [s.audioBuffer.flatten] ∧
      (sendAudioChunk s).audioBuffer = [] ∧
      (sendAudioChunk s).isProcessingAudio = true) ∧
    (s.audioBuffer.length < minAudioFrames → sendAudioChunk s = s) := by
  constructor
  · intro hlen hg
    unfold sendAudioChunk
    rw [if_neg]
    · exact ⟨rfl, rfl, rfl⟩
    · simp only [hg, Bool.or_false, decide_eq_true_eq]
      omega
  · intro hlen
    unfold sendAudioChunk
    rw [if_pos]
    simp only [Bool.or_eq_true, decide_eq_true_eq]
    exact Or.inl hlen

/-- Witness for C5: a ready flush with 10 pending frames, and a suppressed
flush with 3 pending frames. -/
theorem C5_flush_concatenates_witness :
    ((sendAudioChunk { freshIngest with audioBuffer := List.replicate 10 [1/2] }).sent
      = ({ freshIngest with audioBuffer := List.replicate 10 [1/2] } : IngestState).sent
        ++ [({ freshIngest with audioBuffer := List.replicate 10 [1/2] }
              : IngestState).audioBuffer.flatten] ∧
     (sendAudioChunk { freshIngest with
        audioBuffer := List.replicate 10 [1/2] }).audioBuffer = [] ∧
     (sendAudioChunk { freshIngest with
        audioBuffer := List.replicate 10 [1/2] }).isProcessingAudio = true) ∧
    sendAudioChunk { freshIngest with audioBuffer := List.replicate 3 [1/2] }
      = { freshIngest with audioBuffer := List.replicate 3 [1/2] } :=
  ⟨(C5_flush_concatenates
      { freshIngest with audioBuffer := List.replicate 10 [1/2] }).1
      (by decide) (by decide),
   (C5_flush_concatenates
      { freshIngest with audioBuffer := List.replicate 3 [1/2] }).2 (by decide)⟩

/-- C6: the resampler returns the input unchanged at the target rate of
16000 Hz; for a positive source rate other than 16000, the output length is
`floor(inputLength / ratio)` with `ratio = sourceRate / 16000`, each output
sample is the linear interpolation of `input[floor(i*ratio)]` and
`input[floor(i*ratio)+1]` weighted by the fractional part of `i*ratio`,
falling back to the lower sample (or 0 when even that is out of range)
when the upper index is out of range; a 320-sample frame resampled from
32000 Hz yields exactly 160 samples. -/
theorem C6_resample_linear (input : List ℚ) (r : ℕ) :
    resampleTo16kHz input 16000 = input ∧
    (0 < r → r ≠ 16000 →
      (resampleTo16kHz input r).length
        = (⌊(input.length : ℚ) / ((r : ℚ) / 16000)⌋).toNat) ∧
    (0 < r → r ≠ 16000 → ∀ i : ℕ, ∀ h : i < (resampleTo16kHz input r).length,
      (resampleTo16kHz input r)[i]
        = (let ratio : ℚ := (r : ℚ) / 16000
           let srcIndex : ℚ := (i : ℚ) * ratio
           let index : ℕ := (⌊srcIndex⌋).toNat
           let fraction : ℚ := srcIndex - (index : ℚ)
           if index + 1 < input.length then
             input.getD index 0 * (1 - fraction)
               + input.getD (index + 1) 0 * fraction
           else input.getD index 0)) ∧
    (resampleTo16kHz (List.replicate 320 (1/2)) 32000).length = 160 := by
  refine ⟨rfl, ?_, ?_, by decide⟩
  · intro _ hr
    unfold resampleTo16kHz
    rw [if_neg hr]
    simp [List.length_map, List.length_range]
  · intro _ hr i h
    simp only [resampleTo16kHz, if_neg hr, List.getElem_map, List.getElem_range,
      Nat.cast_ofNat]

/-- Witness for C6: identity at 16000 Hz, the 320-sample downsample length,
and the interpolated value of output index 1 when downsampling
`[1, 2, 3, 4]` from 32000 Hz. -/
theorem C6_resample_linear_witness :
    resampleTo16kHz [1, 2, 3] 16000 = [1, 2, 3] ∧
    (resampleTo16kHz (List.replicate 320 (1/2)) 32000).length
      = (⌊((List.replicate 320 ((1:ℚ)/2)).length : ℚ) / ((32000 : ℚ) / 16000)⌋).toNat ∧
    (resampleTo16kHz [1, 2, 3, 4] 32000).get ⟨1, by decide⟩
      = (let ratio : ℚ := ((32000 : ℕ) : ℚ) / 16000
         let srcIndex : ℚ := ((1 : ℕ) : ℚ) * ratio
         let index : ℕ := (⌊srcIndex⌋).toNat
         let fraction : ℚ := srcIndex - (index : ℚ)
         if index + 1 < ([1, 2, 3, 4] : List ℚ).length then
           ([1, 2, 3, 4] : List ℚ).getD index 0 * (1 - fraction)
             + ([1, 2, 3, 4] : List ℚ).getD (index + 1) 0 * fraction
         else ([1, 2, 3, 4] : List ℚ).getD index 0) :=
  ⟨(C6_resample_linear [1, 2, 3] 16000).1,
   (C6_resample_linear (List.replicate 320 (1/2)) 32000).2.1
     (by norm_num) (by norm_num),
   (C6_resample_linear [1, 2, 3, 4] 32000).2.2.1
     (by norm_num) (by norm_num) 1 (by decide)⟩

/-- C8 counterexample: from the `waiting` state, an audio-bearing server
message sets `conversationState` to `responding`, after which a single
speech-classified frame sets it to `listening` — a `responding → listening`
transition (barge-in) that is not among the four transitions the claim
says are the only ones that ever occur. -/
theorem C8_counterexample :
    (onAudioMessage freshIngest).conversationState = ConvState.responding ∧
    (processFrame 16000 [1/2] (onAudioMessage freshIngest)).conversationState
      = ConvState.listening ∧
    listedTransition ConvState.responding ConvState.listening = false := by
  refine ⟨rfl, by decide, by decide⟩

/-- C8 amended: each event forces its target state regardless of the
current state — an audio-bearing message sets `responding`, draining the
source set sets `waiting`, a speech-classified frame sets `listening`, a
silence-triggered flush or an explicit stop sets `processing`.  The four
listed transitions are instances of this, but so are transitions outside
the list, such as `responding → listening`. -/
theorem C8_amended_target_driven (s : IngestState) (sr : ℕ) (pcm : List ℚ)
    (hrec : s.isRecording = true) :
    (onAudioMessage s).conversationState = ConvState.responding ∧
    (onPlaybackDrained s).conversationState = ConvState.waiting ∧
    (hasVoiceActivity pcm = true →
      (processFrame sr pcm s).conversationState = ConvState.listening) ∧
    (silenceFlushFires pcm s = true →
      (processFrame sr pcm s).conversationState = ConvState.processing) ∧
    (stopRecording s).conversationState = ConvState.processing := by
  refine ⟨rfl, rfl, ?_, ?_, rfl⟩
  · intro hv
    unfold processFrame
    simp only [hrec, hv, Bool.not_true, Bool.false_eq_true, if_false, if_true]
    split
    · unfold sendAudioChunk
      split <;> rfl
    · rfl
  · intro hfire
    unfold silenceFlushFires at hfire
    simp only [Bool.and_eq_true, Bool.not_eq_true', decide_eq_true_eq] at hfire
    unfold processFrame
    simp only [hrec, hfire.1.1.2, Bool.not_true, Bool.false_eq_true,
      if_false, if_true]
    rw [if_pos (And.intro hfire.1.2 hfire.2)]

/-- Witness for the amended C8 in the barge-in configuration. -/
theorem C8_amended_target_driven_witness :
    (onAudioMessage freshIngest).conversationState = ConvState.responding ∧
    (onPlaybackDrained freshIngest).conversationState = ConvState.waiting ∧
    (hasVoiceActivity [1/2] = true →
      (processFrame 16000 [1/2] freshIngest).conversationState
        = ConvState.listening) ∧
    (silenceFlushFires [1/2] freshIngest = true →
      (processFrame 16000 [1/2] freshIngest).conversationState
        = ConvState.processing) ∧
    (stopRecording freshIngest).conversationState = ConvState.processing :=
  C8_amended_target_driven freshIngest 16000 [1/2] (by decide)

/-- C9: a silent frame is never appended to the pending buffer (its
processing leaves the buffer unchanged or, on a successful flush, empties
it), and from an empty buffer a run of silent frames — in particular 5 of
them — leaves zero buffered frames and performs no transport send. -/
theorem C9_silence_never_buffered (sr : ℕ) (s : IngestState) (pcm : List ℚ)
    (fs : List (List ℚ)) (hsil : hasVoiceActivity pcm = false)
    (hall : ∀ f ∈ fs, hasVoiceActivity f = false) :
    ((processFrame sr pcm s).audioBuffer = s.audioBuffer ∨
      (processFrame sr pcm s).audioBuffer = []) ∧
    (s.audioBuffer = [] →
      (processFrames sr fs s).audioBuffer = [] ∧
      (processFrames sr fs s).sent = s.sent) := by
  constructor
  · rcases silent_step_cases sr pcm s hsil with ⟨_, h2⟩ | ⟨_, h2⟩
    · exact Or.inl h2
    · exact Or.inr h2
  · intro hb
    have h := silent_run_empty sr fs s hb hall
    exact ⟨h.2, h.1⟩

/-- Witness for C9 with 5 concrete silent frames from the fresh state. -/
theorem C9_silence_never_buffered_witness :
    ((processFrame 16000 [0] freshIngest).audioBuffer = freshIngest.audioBuffer ∨
      (processFrame 16000 [0] freshIngest).audioBuffer = []) ∧
    (freshIngest.audioBuffer = [] →
      (processFrames 16000 (List.replicate 5 [0]) freshIngest).audioBuffer = [] ∧
      (processFrames 16000 (List.replicate 5 [0]) freshIngest).sent
        = freshIngest.sent) :=
  C9_silence_never_buffered 16000 freshIngest [0] (List.replicate 5 [0])
    (by decide) (by decide)

/-- C10: `stopRecording` always returns with the pending buffer empty, the
silence counter at 0 and the in-flight guard cleared, and its final
transport send happens exactly when at least `minAudioFrames` frames were
pending and the guard was clear at that moment; otherwise the pending
audio is discarded unsent. -/
theorem C10_stop_resets (s : IngestState) (hrec : s.isRecording = true) :
    (stopRecording s).audioBuffer = [] ∧
    (stopRecording s).silenceCount = 0 ∧
    (stopRecording s).isProcessingAudio = false ∧
    (minAudioFrames ≤ s.audioBuffer.length ∧ s.isProcessingAudio = false →
      (stopRecording s).sent = s.sent ++ [s.audioBuffer.flatten]) ∧
    (¬(minAudioFrames ≤ s.audioBuffer.length ∧ s.isProcessingAudio = false) →
      (stopRecording s).sent = s.sent) := by
  refine ⟨rfl, rfl, rfl, ?_, ?_⟩
  · rintro ⟨hlen, hg⟩
    have h0 : 0 < s.audioBuffer.length :=
      Nat.lt_of_lt_of_le (by decide) hlen
    simp only [stopRecording, sendAudioChunk]
    rw [if_pos h0, if_neg (by
      simp only [hg, Bool.or_false, decide_eq_true_eq, not_lt]
      exact hlen)]
  · intro hns
    simp only [stopRecording, sendAudioChunk]
    by_cases h0 : 0 < s.audioBuffer.length
    · rw [if_pos h0, if_pos (by
        rcases not_and_or.mp hns with hl | hg
        · simp only [Bool.or_eq_true, decide_eq_true_eq]
          exact Or.inl (Nat.lt_of_not_le hl)
        · simp only [Bool.or_eq_true]
          exact Or.inr (by simpa using hg))]
    · rw [if_neg h0]

/-- Witness for C10 at a state with 10 pending frames and a clear guard. -/
theorem C10_stop_resets_witness :
    (stopRecording { freshIngest with
        audioBuffer := List.replicate 10 [1/2] }).audioBuffer = [] ∧
    (stopRecording { freshIngest with
        audioBuffer := List.replicate 10 [1/2] }).silenceCount = 0 ∧
    (stopRecording { freshIngest with
        audioBuffer := List.replicate 10 [1/2] }).isProcessingAudio = false ∧
    (minAudioFrames ≤ ({ freshIngest with audioBuffer := List.replicate 10 [1/2] }
        : IngestState).audioBuffer.length ∧
      ({ freshIngest with audioBuffer := List.replicate 10 [1/2] }
        : IngestState).isProcessingAudio = false →
      (stopRecording { freshIngest with
          audioBuffer := List.replicate 10 [1/2] }).sent
        = ({ freshIngest with audioBuffer := List.replicate 10 [1/2] }
            : IngestState).sent
          ++ [({ freshIngest with audioBuffer := List.replicate 10 [1/2] }
              : IngestState).audioBuffer.flatten]) ∧
    (¬(minAudioFrames ≤ ({ freshIngest with audioBuffer := List.replicate 10 [1/2] }
        : IngestState).audioBuffer.length ∧
      ({ freshIngest with audioBuffer := List.replicate 10 [1/2] }
        : IngestState).isProcessingAudio = false) →
      (stopRecording { freshIngest with
          audioBuffer := List.replicate 10 [1/2] }).sent
        = ({ freshIngest with audioBuffer := List.replicate 10 [1/2] }
            : IngestState).sent) :=
  C10_stop_resets { freshIngest with audioBuffer := List.replicate 10 [1/2] }
    (by decide)

end EsnupiVoice
